import Mathlib

/-!
Verification of the SwitchBot API client (`switchbot_api/__init__.py`).

The development shallowly embeds the request pipeline of `SwitchBotAPI`:
the header signer (`make_headers`, including full executable SHA-256,
HMAC-SHA256 and base64 implementations), the response classifier inside
`_request`, the `list_devices` payload splitting, the `send_command`
body construction, and the session-ownership state machine
(`__init__` / `_request` lazy session creation / `close`).

JSON values are modelled by an inductive type `Json`; Python dictionaries
are association lists with first-match lookup (`jget`), mirroring
`dict.get`.  Exceptions raised by `_request` are modelled as constructors
of `RequestOutcome`; a Python `KeyError` (an untyped failure, not one of
the library's error classes) is the `keyError` constructor.
-/

namespace SwitchBot

/-- JSON values as parsed by `response.json()`. -/
inductive Json where
  | null
  | bool (b : Bool)
  | num (n : Int)
  | str (s : String)
  | arr (xs : List Json)
  | obj (kvs : List (String × Json))

/-- Python `dict.get(key)`: first-match lookup in an association list,
`none` when the key is absent. -/
def jget (key : String) : List (String × Json) → Option Json
  | [] => none
  | (k, v) :: rest => if k = key then some v else jget key rest

/-- Outcome of one `_request` call: the returned payload (`return body["body"]`)
or the exception raised.  `connectionFailure` carries the message passed to
`SwitchBotConnectionError` (`none` when raised bare); `keyError` models a
Python `KeyError` on a missing dictionary key. -/
inductive RequestOutcome where
  | success (payload : Json)
  | authFailure
  | deviceOffline
  | connectionFailure (msg : Option String)
  | keyError (key : String)

/-- Classification of an HTTP status and parsed envelope by `_request`
(lines 258-278 of `__init__.py`): `403` raises `SwitchBotAuthenticationError`
before anything else, any other status `>= 400` raises
`SwitchBotConnectionError`, and otherwise the envelope's `statusCode`
decides: `100` returns `body["body"]` (a `KeyError` if the key is missing),
`161`/`171` raise `SwitchBotDeviceOfflineError`, anything else raises
`SwitchBotConnectionError`. -/
def classify (status : Nat) (env : List (String × Json)) : RequestOutcome :=
  if status = 403 then
    .authFailure
  else if 400 ≤ status then
    .connectionFailure none
  else
    match jget "statusCode" env with
    | some (.num 100) =>
        match jget "body" env with
        | some payload => .success payload
        | none => .keyError "body"
    | some (.num 161) | some (.num 171) => .deviceOffline
    | _ => .connectionFailure none

/-- Result of the transport layer: either an exception from
`session.request` (`ClientError`, `ClientResponseError`, `socket.gaierror`,
carrying some detail string) or an HTTP status plus parsed JSON envelope. -/
def TransportResult : Type := Except String (Nat × List (String × Json))

/-- Message attached to the `SwitchBotConnectionError` raised when the
transport layer fails. -/
def transportErrorMsg : String :=
  "Error occurred while communicating with the SwitchBot API"

/-- Body of `_request` after the session exists: a transport exception is
re-raised as `SwitchBotConnectionError(msg)`; otherwise the response is
classified. -/
def requestOutcome (t : TransportResult) : RequestOutcome :=
  match t with
  | .error _ => .connectionFailure (some transportErrorMsg)
  | .ok (status, env) => classify status env

/-- Device record (`Device` dataclass).  Field values are the raw JSON
values passed as keyword arguments; Python performs no type coercion. -/
structure Device where
  device_id : Json
  device_name : Json
  device_type : Json
  hub_device_id : Json

/-- Construction of `Device(**kwargs)`: `deviceId`, `deviceName` and
`hubDeviceId` are required (a `KeyError`, modelled by `none`, if absent);
`deviceType` defaults to `"-"` via `kwargs.get("deviceType", "-")`. -/
def Device.ofKwargs (kvs : List (String × Json)) : Option Device := do
  let id ← jget "deviceId" kvs
  let name ← jget "deviceName" kvs
  let dtype := (jget "deviceType" kvs).getD (.str "-")
  let hub ← jget "hubDeviceId" kvs
  pure ⟨id, name, dtype, hub⟩

/-- Remote record (`Remote` dataclass). -/
structure Remote where
  device_id : Json
  device_name : Json
  device_type : Json
  hub_device_id : Json

/-- Construction of `Remote(**kwargs)`: identical to `Device` except that
`device_type` is read from the `remoteType` key, defaulting to `"-"`. -/
def Remote.ofKwargs (kvs : List (String × Json)) : Option Remote := do
  let id ← jget "deviceId" kvs
  let name ← jget "deviceName" kvs
  let dtype := (jget "remoteType" kvs).getD (.str "-")
  let hub ← jget "hubDeviceId" kvs
  pure ⟨id, name, dtype, hub⟩

/-- Element of the list returned by `list_devices`. -/
inductive Entry where
  | device (d : Device)
  | remote (r : Remote)

/-- View a JSON value as an array; iterating anything else fails. -/
def Json.asArr : Json → Option (List Json)
  | .arr xs => some xs
  | _ => none

/-- View a JSON value as an object; `**value` or `.get` on anything else
fails. -/
def Json.asObj : Json → Option (List (String × Json))
  | .obj kvs => some kvs
  | _ => none

/-- Filter from `list_devices`:
`remote.get("remoteType") not in NON_OBSERVED_REMOTE_TYPES` where
`NON_OBSERVED_REMOTE_TYPES = ["Others"]`.  The looked-up value is kept
unless it is exactly the string `"Others"` (an absent key yields Python
`None`, which is not in the list). -/
def keepRemote (kvs : List (String × Json)) : Bool :=
  match jget "remoteType" kvs with
  | some (.str "Others") => false
  | _ => true

/-- Left-to-right traversal of a list comprehension that can fail (the
first Python exception aborts the whole comprehension). -/
def mapOpt (f : α → Option β) : List α → Option (List β)
  | [] => some []
  | a :: rest => do
      let b ← f a
      let bs ← mapOpt f rest
      pure (b :: bs)

/-- Pure part of `list_devices` applied to the success payload `body`:
`[Device(**d) for d in body.get("deviceList")]` followed by
`[Remote(**r) for r in body.get("infraredRemoteList") if r.get("remoteType")
not in NON_OBSERVED_REMOTE_TYPES]`, returned as `[*devices, *remotes]`.
`none` models the untyped Python failures on malformed payloads (missing
key, non-array value, non-dict element). -/
def list_devices (body : List (String × Json)) : Option (List Entry) := do
  let deviceListJson ← jget "deviceList" body
  let deviceList ← deviceListJson.asArr
  let devices ← mapOpt (fun j => j.asObj >>= Device.ofKwargs) deviceList
  let remoteListJson ← jget "infraredRemoteList" body
  let remoteList ← remoteListJson.asArr
  let remoteObjs ← mapOpt Json.asObj remoteList
  let remotes ← mapOpt Remote.ofKwargs (remoteObjs.filter keepRemote)
  pure (devices.map Entry.device ++ remotes.map Entry.remote)

/-- Commands of the `CommonCommands` enumeration (the bound of the type
variable `T` in `send_command`). -/
inductive CommonCommands where
  | on
  | off

/-- Enum member `.value` strings. -/
def CommonCommands.value : CommonCommands → String
  | .on => "turnOn"
  | .off => "turnOff"

/-- Argument `command : T | str` of `send_command`. -/
inductive CommandArg where
  | enum (c : CommonCommands)
  | raw (s : String)

/-- Expression `command.value if isinstance(command, Commands) else command`. -/
def CommandArg.resolve : CommandArg → String
  | .enum c => c.value
  | .raw s => s

/-- One outbound request as handed to `_request`: method, relative path and
optional JSON body. -/
structure SBRequest where
  method : String
  path : String
  json : Option (List (String × Json))

/-- Request built by `send_command(device_id, command, command_type,
parameters)`.  In the source `command_type` defaults to `"command"` and
`parameters` to `"default"`. -/
def send_command (device_id : String) (command : CommandArg)
    (command_type : String) (parameters : Json) : SBRequest :=
  { method := "POST"
    path := "devices/" ++ device_id ++ "/commands"
    json := some [("commandType", .str command_type),
                  ("command", .str command.resolve),
                  ("parameter", parameters)] }

/-- Client state relevant to session ownership: the optional session handle
(sessions are identified by a `Nat`) and the `_close_session` flag (a class
attribute defaulting to `False`). -/
structure ClientState where
  session : Option Nat
  close_session : Bool

/-- State after `SwitchBotAPI.__init__(token, secret, session)`: the session
argument is stored as-is and `_close_session` keeps its default `False`. -/
def initState (session : Option Nat) : ClientState :=
  ⟨session, false⟩

/-- Session bootstrap at the top of `_request`: when no session exists a
fresh one (`fresh`) is created and `_close_session` is set to `True`;
otherwise the state is untouched. -/
def ensureSession (fresh : Nat) (s : ClientState) : ClientState :=
  if s.session.isNone then ⟨some fresh, true⟩ else s

/-- State evolution over a sequence of `_request` calls, each supplying the
session handle it would create if none exists. -/
def applyRequests (ids : List Nat) (s : ClientState) : ClientState :=
  ids.foldl (fun st i => ensureSession i st) s

/-- Session closed by `close()` (also the `__aexit__` path):
`if self.session and self._close_session: await self.session.close()`.
Returns the closed handle, `none` when nothing is closed.  The state itself
is never modified by `close`. -/
def closeTarget (s : ClientState) : Option Nat :=
  if s.session.isSome && s.close_session then s.session else none

/-- Modulus of 32-bit words. -/
def wmod : Nat := 4294967296

/-- Addition modulo 2^32. -/
def add32 (a b : Nat) : Nat := (a + b) % wmod

/-- Right rotation of a 32-bit word by `n` bits. -/
def rotr (n x : Nat) : Nat := (x / 2 ^ n + x % 2 ^ n * 2 ^ (32 - n)) % wmod

/-- Logical right shift of a 32-bit word by `n` bits. -/
def shr (n x : Nat) : Nat := x / 2 ^ n

/-- SHA-256 Σ₀. -/
def bsig0 (x : Nat) : Nat := rotr 2 x ^^^ rotr 13 x ^^^ rotr 22 x

/-- SHA-256 Σ₁. -/
def bsig1 (x : Nat) : Nat := rotr 6 x ^^^ rotr 11 x ^^^ rotr 25 x

/-- SHA-256 σ₀. -/
def ssig0 (x : Nat) : Nat := rotr 7 x ^^^ rotr 18 x ^^^ shr 3 x

/-- SHA-256 σ₁. -/
def ssig1 (x : Nat) : Nat := rotr 17 x ^^^ rotr 19 x ^^^ shr 10 x

/-- SHA-256 Ch function (`~x` is `x ^^^ (2^32 - 1)` on 32-bit words). -/
def ch (x y z : Nat) : Nat := (x &&& y) ^^^ ((x ^^^ 4294967295) &&& z)

/-- SHA-256 Maj function. -/
def maj (x y z : Nat) : Nat := (x &&& y) ^^^ (x &&& z) ^^^ (y &&& z)

/-- SHA-256 round constants (FIPS 180-4, written in decimal). -/
def sha256K : List Nat :=
  [1116352408, 1899447441, 3049323471, 3921009573, 961987163,
   1508970993, 2453635748, 2870763221, 3624381080, 310598401,
   607225278, 1426881987, 1925078388, 2162078206, 2614888103,
   3248222580, 3835390401, 4022224774, 264347078, 604807628,
   770255983, 1249150122, 1555081692, 1996064986, 2554220882,
   2821834349, 2952996808, 3210313671, 3336571891, 3584528711,
   113926993, 338241895, 666307205, 773529912, 1294757372,
   1396182291, 1695183700, 1986661051, 2177026350, 2456956037,
   2730485921, 2820302411, 3259730800, 3345764771, 3516065817,
   3600352804, 4094571909, 275423344, 430227734, 506948616,
   659060556, 883997877, 958139571, 1322822218, 1537002063,
   1747873779, 1955562222, 2024104815, 2227730452, 2361852424,
   2428436474, 2756734187, 3204031479, 3329325298]

/-- Big-endian 8-byte encoding of the message bit length. -/
def lenBytes (bitLen : Nat) : List Nat :=
  [bitLen / 2 ^ 56 % 256, bitLen / 2 ^ 48 % 256, bitLen / 2 ^ 40 % 256,
   bitLen / 2 ^ 32 % 256, bitLen / 2 ^ 24 % 256, bitLen / 2 ^ 16 % 256,
   bitLen / 2 ^ 8 % 256, bitLen % 256]

/-- SHA-256 padding: append `0x80`, zero bytes up to 56 mod 64, then the
8-byte big-endian bit length. -/
def padMessage (msg : List Nat) : List Nat :=
  msg ++ [0x80] ++ List.replicate ((119 - msg.length % 64) % 64) 0
      ++ lenBytes (msg.length * 8)

/-- Fuel-driven splitting of a byte list into successive 64-byte blocks;
each step consumes at least one byte, so a fuel of `l.length` suffices. -/
def toBlocksFuel : Nat → List Nat → List (List Nat)
  | 0, _ => []
  | _, [] => []
  | fuel + 1, b :: rest =>
      (b :: rest).take 64 :: toBlocksFuel fuel ((b :: rest).drop 64)

/-- Split a byte list into successive 64-byte blocks. -/
def toBlocks (l : List Nat) : List (List Nat) := toBlocksFuel l.length l

/-- Big-endian packing of bytes into 32-bit words. -/
def bytesToWords : List Nat → List Nat
  | b0 :: b1 :: b2 :: b3 :: rest =>
      (b0 * 2 ^ 24 + b1 * 2 ^ 16 + b2 * 2 ^ 8 + b3) % wmod :: bytesToWords rest
  | _ => []

/-- Message-schedule extension: append `n` further words to `ws` using
`W[i] = σ₁(W[i-2]) + W[i-7] + σ₀(W[i-15]) + W[i-16]`. -/
def extendSchedule (ws : List Nat) : Nat → List Nat
  | 0 => ws
  | n + 1 =>
      let i := ws.length
      let w := add32 (add32 (ssig1 (ws.getD (i - 2) 0)) (ws.getD (i - 7) 0))
                     (add32 (ssig0 (ws.getD (i - 15) 0)) (ws.getD (i - 16) 0))
      extendSchedule (ws ++ [w]) n

/-- Working state of the SHA-256 compression function. -/
structure Hash8 where
  a : Nat
  b : Nat
  c : Nat
  d : Nat
  e : Nat
  f : Nat
  g : Nat
  h : Nat

/-- One SHA-256 round with schedule word and round constant `kw`. -/
def sha256Round (st : Hash8) (kw : Nat × Nat) : Hash8 :=
  let t1 := add32 st.h (add32 (bsig1 st.e)
            (add32 (ch st.e st.f st.g) (add32 kw.2 kw.1)))
  let t2 := add32 (bsig0 st.a) (maj st.a st.b st.c)
  ⟨add32 t1 t2, st.a, st.b, st.c, add32 st.d t1, st.e, st.f, st.g⟩

/-- Compression of one 64-byte block into the chaining state. -/
def compress (st : Hash8) (block : List Nat) : Hash8 :=
  let ws := extendSchedule (bytesToWords block) 48
  let fin := (ws.zip sha256K).foldl sha256Round st
  ⟨add32 st.a fin.a, add32 st.b fin.b, add32 st.c fin.c, add32 st.d fin.d,
   add32 st.e fin.e, add32 st.f fin.f, add32 st.g fin.g, add32 st.h fin.h⟩

/-- Initial SHA-256 chaining state (FIPS 180-4, written in decimal). -/
def sha256Init : Hash8 :=
  ⟨1779033703, 3144134277, 1013904242, 2773480762,
   1359893119, 2600822924, 528734635, 1541459225⟩

/-- Big-endian byte serialization of one 32-bit word. -/
def wordBytes (w : Nat) : List Nat :=
  [w / 2 ^ 24 % 256, w / 2 ^ 16 % 256, w / 2 ^ 8 % 256, w % 256]

/-- Serialization of the final chaining state into the 32-byte digest. -/
def digestBytes (st : Hash8) : List Nat :=
  wordBytes st.a ++ wordBytes st.b ++ wordBytes st.c ++ wordBytes st.d ++
  wordBytes st.e ++ wordBytes st.f ++ wordBytes st.g ++ wordBytes st.h

/-- SHA-256 of a byte list (each entry an octet). -/
def sha256 (msg : List Nat) : List Nat :=
  digestBytes ((toBlocks (padMessage msg)).foldl compress sha256Init)

/-- HMAC-SHA256 (`hmac.new(key, msg=msg, digestmod=hashlib.sha256)`):
keys longer than the 64-byte block are hashed, then zero-padded to the
block size; digest of `(key ⊕ opad) ++ H((key ⊕ ipad) ++ msg)`. -/
def hmacSha256 (key msg : List Nat) : List Nat :=
  let k0 := if 64 < key.length then sha256 key else key
  let k := k0 ++ List.replicate (64 - k0.length) 0
  sha256 ((k.map (fun b => b ^^^ 0x5c)) ++
          sha256 ((k.map (fun b => b ^^^ 0x36)) ++ msg))

/-- Base64 alphabet. -/
def b64Chars : List Char :=
  "ABCDEFGHIJKLMNOPQRSTUVWXYZabcdefghijklmnopqrstuvwxyz0123456789+/".data

/-- Character at a sextet index of the base64 alphabet. -/
def b64c (i : Nat) : Char := b64Chars.getD (i % 64) 'A'

/-- Standard base64 encoding of a byte list (RFC 4648, with padding), as
computed by `base64.b64encode`. -/
def base64EncodeAux : List Nat → List Char
  | [] => []
  | [a] => [b64c (a / 4), b64c (a % 4 * 16), '=', '=']
  | [a, b] => [b64c (a / 4), b64c (a % 4 * 16 + b / 16), b64c (b % 16 * 4), '=']
  | a :: b :: c :: rest =>
      b64c (a / 4) :: b64c (a % 4 * 16 + b / 16) ::
      b64c (b % 16 * 4 + c / 64) :: b64c (c % 64) :: base64EncodeAux rest

/-- Base64 encoding as a string. -/
def base64Encode (bs : List Nat) : String := String.mk (base64EncodeAux bs)

/-- UTF-8 encoding of one character. -/
def utf8EncodeChar (c : Char) : List Nat :=
  let n := c.toNat
  if n < 0x80 then [n]
  else if n < 0x800 then [0xC0 + n / 64, 0x80 + n % 64]
  else if n < 0x10000 then
    [0xE0 + n / 4096, 0x80 + n / 64 % 64, 0x80 + n % 64]
  else
    [0xF0 + n / 262144, 0x80 + n / 4096 % 64, 0x80 + n / 64 % 64,
     0x80 + n % 64]

/-- UTF-8 byte encoding of a string (`bytes(s, "utf-8")`). -/
def utf8Bytes (s : String) : List Nat :=
  s.data.foldr (fun c acc => utf8EncodeChar c ++ acc) []

/-- Local variable `sign` of `make_headers`:
`base64.b64encode(hmac.new(secret_bytes, msg=string_to_sign,
digestmod=hashlib.sha256).digest())` where
`string_to_sign = bytes(f"{token}{timestamp}{nonce}", "utf-8")` and
`secret_bytes = bytes(secret, "utf-8")`. -/
def signValue (token secret : String) (timestamp : Nat) (nonce : String) :
    String :=
  base64Encode (hmacSha256 (utf8Bytes secret)
    (utf8Bytes (token ++ Nat.repr timestamp ++ nonce)))

/-- Header dictionary built by `make_headers`.  The wall-clock millisecond
timestamp and the random `uuid4` nonce (already rendered by `str`) are the
two external inputs, passed explicitly. -/
def make_headers (token secret : String) (timestamp : Nat) (nonce : String) :
    List (String × String) :=
  [("Authorization", token),
   ("Content-Type", "application/json"),
   ("charset", "utf8"),
   ("t", Nat.repr timestamp),
   ("sign", signValue token secret timestamp nonce),
   ("nonce", nonce)]

set_option maxRecDepth 100000

/-- Sanity check of the SHA-256 embedding against the FIPS 180 test vector
for the message `"abc"`. -/
theorem sha256_vector_abc :
    sha256 (utf8Bytes "abc") =
      [186, 120, 22, 191, 143, 1, 207, 234, 65, 65, 64, 222, 93, 174,
       34, 35, 176, 3, 97, 163, 150, 23, 122, 156, 180, 16, 255, 97,
       242, 0, 21, 173] := by
  decide

/-- Sanity check of the HMAC-SHA256 embedding against RFC 4231 test case 2
(key `"Jefe"`, data `"what do ya want for nothing?"`). -/
theorem hmac_vector_rfc4231 :
    hmacSha256 (utf8Bytes "Jefe") (utf8Bytes "what do ya want for nothing?") =
      [91, 220, 193, 70, 191, 96, 117, 78, 106, 4, 36, 38, 8, 149,
       117, 199, 90, 0, 63, 8, 157, 39, 57, 131, 157, 236, 88, 185,
       100, 236, 56, 67] := by
  decide

/-- Sanity check of the base64 embedding (RFC 4648 vectors). -/
theorem base64_vectors :
    base64Encode (utf8Bytes "abc") = "YWJj" ∧
    base64Encode (utf8Bytes "ab") = "YWI=" ∧
    base64Encode (utf8Bytes "a") = "YQ==" := by
  exact ⟨rfl, rfl, rfl⟩

/-- C1: in `_request`, HTTP status 403 raises `SwitchBotAuthenticationError`
whatever the envelope holds, and any other status `>= 400` raises
`SwitchBotConnectionError` whatever the envelope holds (including a
`statusCode` of 100); the 403 test precedes the `>= 400` test, so 403 is
never classified as a generic connection failure. -/
theorem classify_http_error (status : Nat) (env : List (String × Json)) :
    (status = 403 → classify status env = .authFailure) ∧
    (status ≠ 403 → 400 ≤ status →
      classify status env = .connectionFailure none) := by
  constructor
  · intro h
    simp [classify, h]
  · intro h1 h2
    simp [classify, h1, h2]

/-- Witness for C1 at HTTP 403 and HTTP 500, both with an envelope whose
`statusCode` is 100. -/
theorem classify_http_error_witness :
    classify 403 [("statusCode", Json.num 100)] = .authFailure ∧
    classify 500 [("statusCode", Json.num 100)] = .connectionFailure none :=
  ⟨(classify_http_error 403 [("statusCode", Json.num 100)]).1 rfl,
   (classify_http_error 500 [("statusCode", Json.num 100)]).2
     (by decide) (by decide)⟩

/-- C2: for HTTP status below 400 the outcome depends only on the
envelope's `statusCode`: 100 returns the envelope's `body` unchanged,
161 and 171 raise `SwitchBotDeviceOfflineError`, and any other present
value raises `SwitchBotConnectionError`. -/
theorem classify_statusCode (status : Nat) (env : List (String × Json))
    (h : status < 400) :
    (∀ p, jget "statusCode" env = some (.num 100) →
      jget "body" env = some p → classify status env = .success p) ∧
    (∀ n : Int, jget "statusCode" env = some (.num n) →
      (n = 161 ∨ n = 171) → classify status env = .deviceOffline) ∧
    (∀ v, jget "statusCode" env = some v → v ≠ .num 100 → v ≠ .num 161 →
      v ≠ .num 171 → classify status env = .connectionFailure none) := by
  have h403 : ¬status = 403 := by omega
  have h400 : ¬400 ≤ status := by omega
  refine ⟨?_, ?_, ?_⟩
  · intro p h1 h2
    simp [classify, h403, h400, h1, h2]
  · intro n h1 hn
    rcases hn with rfl | rfl <;> simp [classify, h403, h400, h1]
  · intro v h1 hv100 hv161 hv171
    simp only [classify, if_neg h403, if_neg h400, h1]
    split <;> simp_all

/-- Witness for C2: HTTP 200 with `statusCode` 100 returns the body, with
`statusCode` 171 reports the device offline, and with `statusCode` 190
raises a connection failure. -/
theorem classify_statusCode_witness :
    classify 200 [("statusCode", Json.num 100), ("body", Json.obj [])] =
      .success (Json.obj []) ∧
    classify 200 [("statusCode", Json.num 171)] = .deviceOffline ∧
    classify 200 [("statusCode", Json.num 190)] = .connectionFailure none :=
  ⟨(classify_statusCode 200 _ (by decide)).1 (Json.obj []) rfl rfl,
   (classify_statusCode 200 _ (by decide)).2.1 171 rfl (Or.inr rfl),
   (classify_statusCode 200 _ (by decide)).2.2 (Json.num 190) rfl
     (by simp) (by simp) (by simp)⟩

/-- C9: for HTTP status below 400 and an envelope without a `statusCode`
key, the lookup yields Python `None`, which falls to the catch-all branch:
`SwitchBotConnectionError` is raised and no `KeyError` (or any other
untyped failure) occurs. -/
theorem classify_missing_statusCode (status : Nat)
    (env : List (String × Json)) (h : status < 400)
    (hmiss : jget "statusCode" env = none) :
    classify status env = .connectionFailure none ∧
    ∀ k, classify status env ≠ .keyError k := by
  have h403 : ¬status = 403 := by omega
  have h400 : ¬400 ≤ status := by omega
  have hc : classify status env = .connectionFailure none := by
    simp [classify, h403, h400, hmiss]
  exact ⟨hc, fun k hk => by simp [hc] at hk⟩

/-- Witness for C9 at HTTP 200 with an envelope carrying only a `body`. -/
theorem classify_missing_statusCode_witness :
    classify 200 [("body", Json.obj [])] = .connectionFailure none ∧
    ∀ k, classify 200 [("body", Json.obj [])] ≠ .keyError k :=
  classify_missing_statusCode 200 [("body", Json.obj [])] (by decide) rfl

/-- C4: a transport exception (`ClientError`, `ClientResponseError`,
`socket.gaierror`) is re-raised as `SwitchBotConnectionError` carrying the
fixed human-readable message, independent of the exception's detail, and
the classifier is never involved: no classifier outcome ever carries that
message. -/
theorem transport_error_shortcircuits :
    (∀ detail : String, requestOutcome (.error detail) =
      .connectionFailure (some transportErrorMsg)) ∧
    (∀ status env, classify status env ≠
      .connectionFailure (some transportErrorMsg)) := by
  constructor
  · intro detail
    rfl
  · intro status env
    simp only [classify]
    split
    · simp
    · split
      · simp
      · split <;> (try split) <;> simp

/-- Witness for C4: a concrete DNS-failure detail string maps to the fixed
connection-failure message, while classification of a concrete healthy
response never produces it. -/
theorem transport_error_shortcircuits_witness :
    requestOutcome (.error "DNS failure") =
      .connectionFailure (some transportErrorMsg) ∧
    classify 200 [] ≠ .connectionFailure (some transportErrorMsg) :=
  ⟨transport_error_shortcircuits.1 "DNS failure",
   transport_error_shortcircuits.2 200 []⟩

/-- Objects wrapped by `Json.obj` unwrap with `asObj` before a failing
continuation. -/
theorem mapOpt_obj_bind (f : List (String × Json) → Option α)
    (ds : List (List (String × Json))) :
    mapOpt (fun j => j.asObj.bind f) (ds.map Json.obj) = mapOpt f ds := by
  induction ds with
  | nil => rfl
  | cons d ds ih =>
      simp only [List.map_cons, mapOpt]
      rw [ih]
      rfl

/-- A list of wrapped objects always unwraps completely. -/
theorem mapOpt_obj (rs : List (List (String × Json))) :
    mapOpt Json.asObj (rs.map Json.obj) = some rs := by
  induction rs with
  | nil => rfl
  | cons r rs ih =>
      simp only [List.map_cons, mapOpt]
      rw [ih]
      rfl

/-- C5: on a success payload carrying object lists `deviceList` and
`infraredRemoteList`, `list_devices` returns the device records first,
then the remote records, dropping every remote whose `remoteType` is the
sentinel `"Others"`; and on the concrete one-device payload of the spec
scenario it returns exactly one device record with `device_id = "A1"`. -/
theorem list_devices_splits :
    (∀ (ds rs : List (List (String × Json))),
      list_devices
        [("deviceList", Json.arr (ds.map Json.obj)),
         ("infraredRemoteList", Json.arr (rs.map Json.obj))] =
      (do
        let devices ← mapOpt Device.ofKwargs ds
        let remotes ← mapOpt Remote.ofKwargs (rs.filter keepRemote)
        pure (devices.map Entry.device ++ remotes.map Entry.remote))) ∧
    list_devices
      [("deviceList", Json.arr [Json.obj
          [("deviceId", Json.str "A1"), ("deviceName", Json.str "Lamp"),
           ("deviceType", Json.str "Color Bulb"),
           ("hubDeviceId", Json.str "H1")]]),
       ("infraredRemoteList", Json.arr [])] =
      some [Entry.device ⟨Json.str "A1", Json.str "Lamp",
                          Json.str "Color Bulb", Json.str "H1"⟩] := by
  constructor
  · intro ds rs
    have h1 : list_devices
        [("deviceList", Json.arr (ds.map Json.obj)),
         ("infraredRemoteList", Json.arr (rs.map Json.obj))] =
        Option.bind
          (mapOpt (fun j => j.asObj.bind Device.ofKwargs) (ds.map Json.obj))
          (fun devices =>
            Option.bind (mapOpt Json.asObj (rs.map Json.obj))
              (fun remoteObjs =>
                Option.bind
                  (mapOpt Remote.ofKwargs (remoteObjs.filter keepRemote))
                  (fun remotes =>
                    some (devices.map Entry.device ++
                          remotes.map Entry.remote)))) := rfl
    rw [h1, mapOpt_obj_bind]
    simp only [mapOpt_obj]
    rfl
  · rfl

/-- C6: `send_command` posts to `devices/{device_id}/commands` a JSON body
holding exactly `commandType`, `command` (the enum's `.value` for enum
members, the raw string otherwise) and `parameter`, in that order; with the
default arguments and command `turnOn` the body is exactly
`{"commandType": "command", "command": "turnOn", "parameter": "default"}`. -/
theorem send_command_request :
    (∀ (device_id : String) (command : CommandArg) (command_type : String)
        (parameters : Json),
      send_command device_id command command_type parameters =
        { method := "POST"
          path := "devices/" ++ device_id ++ "/commands"
          json := some [("commandType", Json.str command_type),
                        ("command", Json.str command.resolve),
                        ("parameter", parameters)] }) ∧
    (send_command "X" (.raw "turnOn") "command" (Json.str "default")).json =
      some [("commandType", Json.str "command"),
            ("command", Json.str "turnOn"),
            ("parameter", Json.str "default")] ∧
    CommandArg.resolve (.enum .on) = "turnOn" :=
  ⟨fun _ _ _ _ => rfl, rfl, rfl⟩

/-- Requests leave a state that already carries a session untouched. -/
theorem applyRequests_some (ids : List Nat) (sess : Nat) (b : Bool) :
    applyRequests ids ⟨some sess, b⟩ = ⟨some sess, b⟩ := by
  induction ids with
  | nil => rfl
  | cons i ids ih => simpa [applyRequests, ensureSession] using ih

/-- C7: with an externally supplied session, any number of requests later,
`close()` closes nothing and the stored session is still the supplied one;
with no session supplied, the first request creates one with
`_close_session = True` and `close()` closes exactly that session. -/
theorem session_ownership :
    (∀ (sess : Nat) (ids : List Nat),
      closeTarget (applyRequests ids (initState (some sess))) = none ∧
      (applyRequests ids (initState (some sess))).session = some sess) ∧
    (∀ (fresh : Nat) (ids : List Nat),
      closeTarget (applyRequests (fresh :: ids) (initState none)) =
        some fresh) := by
  constructor
  · intro sess ids
    rw [show initState (some sess) = (⟨some sess, false⟩ : ClientState)
          from rfl,
        applyRequests_some]
    exact ⟨rfl, rfl⟩
  · intro fresh ids
    rw [show applyRequests (fresh :: ids) (initState none) =
          applyRequests ids ⟨some fresh, true⟩ from rfl,
        applyRequests_some]
    rfl

/-- C10: `Device(**kwargs)` and `Remote(**kwargs)` copy `deviceId`,
`deviceName` and `hubDeviceId` unchanged and require them (a `KeyError`,
modelled by `none`, when any is missing); the type field defaults to `"-"`,
read from `deviceType` for devices and from `remoteType` for remotes. -/
theorem record_fields :
    (∀ kvs idv name hub,
      jget "deviceId" kvs = some idv → jget "deviceName" kvs = some name →
      jget "hubDeviceId" kvs = some hub →
      Device.ofKwargs kvs =
        some ⟨idv, name, (jget "deviceType" kvs).getD (.str "-"), hub⟩ ∧
      Remote.ofKwargs kvs =
        some ⟨idv, name, (jget "remoteType" kvs).getD (.str "-"), hub⟩) ∧
    (∀ kvs, jget "deviceId" kvs = none →
      Device.ofKwargs kvs = none ∧ Remote.ofKwargs kvs = none) ∧
    (∀ kvs idv, jget "deviceId" kvs = some idv →
      jget "deviceName" kvs = none →
      Device.ofKwargs kvs = none ∧ Remote.ofKwargs kvs = none) ∧
    (∀ kvs idv name, jget "deviceId" kvs = some idv →
      jget "deviceName" kvs = some name → jget "hubDeviceId" kvs = none →
      Device.ofKwargs kvs = none ∧ Remote.ofKwargs kvs = none) := by
  refine ⟨?_, ?_, ?_, ?_⟩ <;>
    · intro kvs
      intros
      exact ⟨by simp_all [Device.ofKwargs], by simp_all [Remote.ofKwargs]⟩

/-- Witness for C10: a record without `deviceType` gets the placeholder
`"-"`, and a record missing the required keys fails. -/
theorem record_fields_witness :
    Device.ofKwargs
      [("deviceId", Json.str "A1"), ("deviceName", Json.str "Lamp"),
       ("hubDeviceId", Json.str "H1")] =
      some ⟨Json.str "A1", Json.str "Lamp", Json.str "-", Json.str "H1"⟩ ∧
    Remote.ofKwargs [] = none :=
  ⟨(record_fields.1
      [("deviceId", Json.str "A1"), ("deviceName", Json.str "Lamp"),
       ("hubDeviceId", Json.str "H1")]
      (Json.str "A1") (Json.str "Lamp") (Json.str "H1") rfl rfl rfl).1,
   (record_fields.2.1 [] rfl).2⟩

/-- C3: the header dictionary built by `make_headers` has exactly the six
keys `Authorization`, `Content-Type`, `charset`, `t`, `sign` and `nonce`;
`Authorization` is the raw token, `Content-Type` is `application/json`,
`charset` is `utf8`, `t` is the decimal rendering of the millisecond
timestamp, `nonce` is the nonce's string form, and `sign` is the base64
encoding of the HMAC-SHA256 digest, keyed by the UTF-8 bytes of the
secret, of the UTF-8 bytes of token, timestamp and nonce concatenated. -/
theorem make_headers_spec (token secret : String) (timestamp : Nat)
    (nonce : String) :
    (make_headers token secret timestamp nonce).map Prod.fst =
      ["Authorization", "Content-Type", "charset", "t", "sign", "nonce"] ∧
    make_headers token secret timestamp nonce =
      [("Authorization", token),
       ("Content-Type", "application/json"),
       ("charset", "utf8"),
       ("t", Nat.repr timestamp),
       ("sign", base64Encode (hmacSha256 (utf8Bytes secret)
          (utf8Bytes (token ++ Nat.repr timestamp ++ nonce)))),
       ("nonce", nonce)] :=
  ⟨rfl, rfl⟩

/-- Serialized words are octet lists. -/
theorem wordBytes_lt (w : Nat) : ∀ b ∈ wordBytes w, b < 256 := by
  intro b hb
  simp only [wordBytes, List.mem_cons, List.not_mem_nil, or_false] at hb
  rcases hb with rfl | rfl | rfl | rfl <;> exact Nat.mod_lt _ (by norm_num)

/-- A SHA-256 digest is 32 bytes long. -/
theorem sha256_length (msg : List Nat) : (sha256 msg).length = 32 := rfl

/-- Every entry of a SHA-256 digest is an octet. -/
theorem sha256_lt (msg : List Nat) : ∀ b ∈ sha256 msg, b < 256 := by
  intro b hb
  simp only [sha256, digestBytes, List.mem_append] at hb
  rcases hb with ((((((hb | hb) | hb) | hb) | hb) | hb) | hb) | hb <;>
    exact wordBytes_lt _ b hb

/-- An HMAC-SHA256 digest is 32 bytes long. -/
theorem hmacSha256_length (key msg : List Nat) :
    (hmacSha256 key msg).length = 32 := rfl

/-- Every entry of an HMAC-SHA256 digest is an octet. -/
theorem hmacSha256_lt (key msg : List Nat) :
    ∀ b ∈ hmacSha256 key msg, b < 256 :=
  sha256_lt _

/-- Packing of a 32-byte digest into a function on finite index space,
used to expose that digests range over a finite type. -/
def packDigest (l : List Nat) : Fin 32 → Fin 256 :=
  fun i => ⟨l.getD i 0 % 256, Nat.mod_lt _ (by norm_num)⟩

/-- Packing is injective on 32-entry octet lists. -/
theorem packDigest_inj (l l' : List Nat) (h32 : l.length = 32)
    (h32' : l'.length = 32) (hlt : ∀ b ∈ l, b < 256)
    (hlt' : ∀ b ∈ l', b < 256) (h : packDigest l = packDigest l') :
    l = l' := by
  apply List.ext_getElem (by rw [h32, h32'])
  intro i hi hi'
  have hi32 : i < 32 := by omega
  have hfun := congrFun h ⟨i, hi32⟩
  simp only [packDigest, Fin.mk.injEq] at hfun
  rw [List.getD_eq_getElem l 0 hi, List.getD_eq_getElem l' 0 hi'] at hfun
  have b1 : l[i] < 256 := hlt _ (List.getElem_mem hi)
  have b2 : l'[i] < 256 := hlt' _ (List.getElem_mem hi')
  rwa [Nat.mod_eq_of_lt b1, Nat.mod_eq_of_lt b2] at hfun

/-- C8 counterexample: the signature is not injective in the timestamp.
Digests live in the finite space of 32-octet strings while timestamps
range over all of `Nat`, so two distinct timestamps (with the same
non-empty token, the same non-empty secret and the same nonce) share one
`sign` header value. -/
theorem sign_collision_exists :
    ∃ t1 t2 : Nat, t1 ≠ t2 ∧
      signValue "a" "b" t1 "n" = signValue "a" "b" t2 "n" ∧
      (make_headers "a" "b" t1 "n").lookup "sign" =
        (make_headers "a" "b" t2 "n").lookup "sign" ∧
      ("a" : String) ≠ "" ∧ ("b" : String) ≠ "" := by
  obtain ⟨t1, t2, hne, heq⟩ := Finite.exists_ne_map_eq_of_infinite
    (fun t : Nat => packDigest (hmacSha256 (utf8Bytes "b")
      (utf8Bytes ("a" ++ Nat.repr t ++ "n"))))
  have hdig : hmacSha256 (utf8Bytes "b")
      (utf8Bytes ("a" ++ Nat.repr t1 ++ "n")) =
        hmacSha256 (utf8Bytes "b") (utf8Bytes ("a" ++ Nat.repr t2 ++ "n")) :=
    packDigest_inj _ _ (hmacSha256_length _ _) (hmacSha256_length _ _)
      (hmacSha256_lt _ _) (hmacSha256_lt _ _) heq
  have hsign : signValue "a" "b" t1 "n" = signValue "a" "b" t2 "n" := by
    simp only [signValue, hdig]
  refine ⟨t1, t2, hne, hsign, ?_, by decide, by decide⟩
  have hl : ∀ ts : Nat, (make_headers "a" "b" ts "n").lookup "sign" =
      some (signValue "a" "b" ts "n") := fun ts => rfl
  rw [hl t1, hl t2, hsign]

/-- C8 as amended: the signature computation is deterministic — for
non-empty token and secret, runs with identical token, secret, timestamp
and nonce produce an identical `sign` header value (and an identical
header set); but changing a single input does not always change the
signature, since distinct timestamps can collide. -/
theorem sign_deterministic (tok1 sec1 : String) (ts1 : Nat) (n1 : String)
    (tok2 sec2 : String) (ts2 : Nat) (n2 : String)
    (htok : tok1 ≠ "") (hsec : sec1 ≠ "") (e1 : tok1 = tok2)
    (e2 : sec1 = sec2) (e3 : ts1 = ts2) (e4 : n1 = n2) :
    signValue tok1 sec1 ts1 n1 = signValue tok2 sec2 ts2 n2 ∧
    make_headers tok1 sec1 ts1 n1 = make_headers tok2 sec2 ts2 n2 := by
  subst e1; subst e2; subst e3; subst e4
  exact ⟨rfl, rfl⟩

/-- Witness for the amended C8 at concrete non-empty credentials. -/
theorem sign_deterministic_witness :
    signValue "tok" "sec" 1718000000000 "n1" =
      signValue "tok" "sec" 1718000000000 "n1" ∧
    make_headers "tok" "sec" 1718000000000 "n1" =
      make_headers "tok" "sec" 1718000000000 "n1" :=
  sign_deterministic "tok" "sec" 1718000000000 "n1" "tok" "sec"
    1718000000000 "n1" (by decide) (by decide) rfl rfl rfl rfl

end SwitchBot
